import Mathlib

/-!
Verification development for the starknet.py core: scalar normalization,
typed-data type encoding and validation, transaction preimage assembly, and
the class-declaration program codec. Components whose code is absent from the
repository snapshot (the typed-data module and the hash builders) are modelled
from the specification, as marked on each definition; everything else is a
direct embedding of starknet_py/net/models/transaction.py.
-/

/-- Modelled from the spec: the short-string encoding used by the
string-to-field primitive; the big-endian integer formed by the ASCII bytes
of a text. -/
def fromShortString (s : String) : Nat :=
  s.data.foldl (fun a c => a * 256 + c.toNat) 0

/-- Lowercase hexadecimal rendering of a natural number, without the 0x marker. -/
def hexStr (n : Nat) : String :=
  String.mk (Nat.toDigits 16 n)

/-- Value of a decimal numeric text. -/
def decToNat (s : String) : Nat :=
  s.data.foldl (fun a c => a * 10 + (c.toNat - 48)) 0

/-- Whether a text already carries the 0x hexadecimal marker. -/
def isHexPrefixed (s : String) : Bool :=
  match s.data with
  | '0' :: 'x' :: _ => true
  | _ => false

/-- A scalar input to normalization: a Python int or a text. -/
inductive ScalarInput where
  | int : Nat → ScalarInput
  | str : String → ScalarInput
deriving DecidableEq

/-- Modelled from the spec: normalize_scalar, the get_hex contract of the
missing typed-data module. An integer maps to its hexadecimal literal; decimal
numeric text to the hex of the parsed integer; text already hex-prefixed passes
through unchanged; any other text is treated as a short ASCII string of at most
31 bytes and hex-encoded as the big-endian integer formed by its bytes; longer
text is an encoding error. -/
def getHex : ScalarInput → Except String String
  | .int n => Except.ok ("0x" ++ hexStr n)
  | .str s =>
    if s ≠ "" ∧ s.data.all Char.isDigit then
      Except.ok ("0x" ++ hexStr (decToNat s))
    else if isHexPrefixed s then
      Except.ok s
    else if s.length ≤ 31 then
      Except.ok ("0x" ++ hexStr (fromShortString s))
    else
      Except.error ("Short string exceeds 31 bytes: " ++ s)

/-- Encoding-rule revision tag of the typed-data format. -/
inductive Revision where
  | v0 : Revision
  | v1 : Revision
deriving DecidableEq

/-- A field declaration: field name and field type text. -/
abbrev Param := String × String

/-- An ordered mapping from type names to their field declarations. -/
abbrev TypeDefs := List (String × List Param)

/-- Find the declaration of a type name in the registry. -/
def lookupType (td : TypeDefs) (name : String) : Option (List Param) :=
  match td with
  | [] => none
  | (n, ps) :: rest => if n = name then some ps else lookupType rest name

/-- Strip one trailing array marker from a field type text. -/
def stripPointer (t : String) : String :=
  match t.data.getLast? with
  | some '*' => String.mk t.data.dropLast
  | _ => t

/-- Modelled from the spec: the reserved set of type names that may not be
declared in a registry. -/
def reservedNames : List String := ["felt", "felt*", "string", "selector"]

/-- Modelled from the spec: the primitive type tags of each revision. -/
def basicTypes (rev : Revision) : List String :=
  match rev with
  | .v0 => ["felt", "bool", "string", "selector", "merkletree"]
  | .v1 =>
    ["felt", "bool", "string", "selector", "merkletree", "enum", "shortstring",
     "u128", "i128", "ContractAddress", "ClassHash", "timestamp"]

/-- First declared type name that falls in the reserved set, if any. -/
def findReserved (td : TypeDefs) : Option String :=
  match td with
  | [] => none
  | (n, _) :: rest => if reservedNames.contains n then some n else findReserved rest

/-- Whether a referenced type name resolves: a primitive tag or a declared type. -/
def refOk (rev : Revision) (td : TypeDefs) (t : String) : Bool :=
  (basicTypes rev).contains t || (lookupType td t).isSome

/-- First unresolvable referenced type among a list of field declarations. -/
def findUnknownIn (rev : Revision) (td : TypeDefs) (ps : List Param) : Option String :=
  match ps with
  | [] => none
  | (_, t) :: rest =>
    if refOk rev td (stripPointer t) then findUnknownIn rev td rest else some t

/-- First unresolvable referenced type across the whole registry. -/
def findUnknown (rev : Revision) (td : TypeDefs) (rem : TypeDefs) : Option String :=
  match rem with
  | [] => none
  | (_, ps) :: rest =>
    match findUnknownIn rev td ps with
    | some t => some t
    | none => findUnknown rev td rest

/-- Modelled from the spec: registry validation; rejects, before any hashing,
any declared name in the reserved set and any referenced-but-undeclared struct
name. -/
def validateTypes (rev : Revision) (td : TypeDefs) : Except String Unit :=
  match findReserved td with
  | some n => Except.error ("Reserved type name: " ++ n)
  | none =>
    match findUnknown rev td td with
    | some t => Except.error ("Unknown type: " ++ t)
    | none => Except.ok ()

/-- The implicit domain type name of each revision. -/
def domainTypeName (rev : Revision) : String :=
  match rev with
  | .v0 => "StarkNetDomain"
  | .v1 => "StarknetDomain"

/-- The typed-data domain: name, version, chain id and revision tag. -/
structure Domain where
  name : ScalarInput
  version : ScalarInput
  chainId : ScalarInput
  revision : Revision := Revision.v0

/-- A validated typed-data value: type registry, primary type, domain and
message. -/
structure TypedData where
  types : TypeDefs
  primaryType : String
  domain : Domain
  message : List (String × ScalarInput)

/-- Modelled from the spec: TypedData construction. Runs full registry
validation before anything else; no hash primitive is involved anywhere in
construction. -/
def mkTypedData (types : TypeDefs) (primaryType : String) (domain : Domain)
    (message : List (String × ScalarInput)) : Except String TypedData :=
  match validateTypes domain.revision types with
  | Except.error e => Except.error e
  | Except.ok _ =>
    if (lookupType types primaryType).isNone then
      Except.error ("Unknown primary type: " ++ primaryType)
    else if (lookupType types (domainTypeName domain.revision)).isNone then
      Except.error ("Missing domain type: " ++ domainTypeName domain.revision)
    else
      Except.ok { types := types, primaryType := primaryType, domain := domain,
                  message := message }

/-- Modelled from the spec: the dependency closure of a root type in
visitation order; depth-first over field declarations in declaration order,
recording each type when first encountered, starting with the root, never
repeating a type and skipping primitives. -/
def depsVisit (td : TypeDefs) : Nat → List String → String → List String
  | 0, vis, _ => vis
  | fuel + 1, vis, t =>
    if vis.contains t then vis
    else
      match lookupType td t with
      | none => vis
      | some ps => ps.foldl (fun v p => depsVisit td fuel v (stripPointer p.2)) (vis ++ [t])

/-- Modelled from the spec: the per-type block of the encoded type string.
Revision 0 renders Name(f1:t1,...); revision 1 quotes every identifier. -/
def typeBlock (rev : Revision) (name : String) (ps : List Param) : String :=
  match rev with
  | .v0 => name ++ "(" ++ String.intercalate "," (ps.map fun p => p.1 ++ ":" ++ p.2) ++ ")"
  | .v1 =>
    "\"" ++ name ++ "\"(" ++
      String.intercalate "," (ps.map fun p => "\"" ++ p.1 ++ "\":\"" ++ p.2 ++ "\"") ++ ")"

/-- Modelled from the spec: encode_type; concatenation, with no separator, of
the per-type blocks of every type in the dependency closure of the root. -/
def encodeType (rev : Revision) (td : TypeDefs) (root : String) : String :=
  String.join ((depsVisit td (td.length + 1) [] root).map fun n =>
    match lookupType td n with
    | some ps => typeBlock rev n ps
    | none => "")

/-- The Mail and Person schema of the canonical examples. -/
def mailTypes : TypeDefs :=
  [("Mail", [("from", "Person"), ("to", "Person"), ("contents", "felt")]),
   ("Person", [("name", "felt"), ("wallet", "felt")])]

/-- The revision 0 domain type declaration of the test fixtures. -/
def domainTypeV0 : TypeDefs :=
  [("StarkNetDomain", [("name", "felt"), ("version", "felt"), ("chainId", "felt")])]

/-- The revision 1 domain type declaration of the test fixtures. -/
def domainTypeV1 : TypeDefs :=
  [("StarknetDomain",
    [("name", "shortstring"), ("version", "shortstring"), ("chainId", "shortstring"),
     ("revision", "shortstring")])]

/-- The revision 0 domain value of the test fixtures. -/
def domainV0 : Domain :=
  { name := .str "DomainV0", version := .str "1", chainId := .int 1234 }

/-- The revision 1 domain value of the test fixtures. -/
def domainV1 : Domain :=
  { name := .str "DomainV1", version := .str "1", chainId := .str "1234",
    revision := .v1 }

/-- Modelled from the spec: the distinguished declare kind constant fed first
into declare preimages; realized as the big-endian ASCII short string of the
kind name. -/
def declareTag : Nat := fromShortString "declare"

/-- Modelled from the spec: the distinguished deploy-account kind constant. -/
def deployAccountTag : Nat := fromShortString "deploy_account"

/-- Modelled from the spec: the distinguished invoke kind constant. -/
def invokeTag : Nat := fromShortString "invoke"

/-- Data availability mode of nonce and fee data. -/
inductive DAMode where
  | l1 : DAMode
  | l2 : DAMode
deriving DecidableEq

/-- Numeric value of a data availability mode. -/
def DAMode.value : DAMode → Nat
  | .l1 => 0
  | .l2 => 1

/-- Closed set of transaction kinds, the type field of each dataclass. -/
inductive TransactionType where
  | declareKind : TransactionType
  | deployAccountKind : TransactionType
  | invokeKind : TransactionType
deriving DecidableEq

/-- Per-resource fee bound: maximal quantity and maximal price per unit. -/
structure ResourceBounds where
  max_amount : Nat
  max_price_per_unit : Nat
deriving DecidableEq

/-- Fee bounds for the L1 and L2 gas resources. -/
structure ResourceBoundsMapping where
  l1_gas : ResourceBounds
  l2_gas : ResourceBounds
deriving DecidableEq

/-- A sierra contract class, abstracted to its declaration content. -/
structure SierraContractClass where
  content : List Nat
deriving DecidableEq

/-- A legacy contract class, abstracted to its declaration content. -/
structure ContractClass where
  content : List Nat
deriving DecidableEq

/-- Modelled from the spec: the packed field element contributed by one
resource bound inside the fee-bounds hash; the resource name as a short
string alongside the amount and price limits. -/
def resourceFelt (name : String) (rb : ResourceBounds) : Nat :=
  fromShortString name * 2 ^ 192 + rb.max_amount * 2 ^ 128 + rb.max_price_per_unit

/-- Modelled from the spec: the packed data-availability-mode element. -/
def packDAModes (nonceMode feeMode : DAMode) : Nat :=
  nonceMode.value * 2 ^ 32 + feeMode.value

/-- The shared argument record every version 3 transaction class passes to its
hash builder; txKind holds the kind constant the caller chose, the source
field named tx_prefix. -/
structure CommonTransactionV3Fields where
  txKind : Nat
  version : Nat
  address : Nat
  tip : Nat
  resource_bounds : ResourceBoundsMapping
  paymaster_data : List Nat
  chain_id : Nat
  nonce : Nat
  nonce_data_availability_mode : DAMode
  fee_data_availability_mode : DAMode

/-- Modelled from the spec: the common version 3 preimage segment; kind
constant, version, sender address, fee-bounds hash, paymaster-data hash,
chain id, nonce and the packed data-availability modes. -/
def commonV3Fields (fh : List Nat → Nat) (cf : CommonTransactionV3Fields) : List Nat :=
  [cf.txKind, cf.version, cf.address,
   fh [cf.tip, resourceFelt "L1_GAS" cf.resource_bounds.l1_gas,
       resourceFelt "L2_GAS" cf.resource_bounds.l2_gas],
   fh cf.paymaster_data, cf.chain_id, cf.nonce,
   packDAModes cf.nonce_data_availability_mode cf.fee_data_availability_mode]

/-- Modelled from the spec: the deploy-account version 3 preimage; the common
segment followed by the constructor-calldata hash, class hash and salt. -/
def deployAccountV3Input (fh : List Nat → Nat) (class_hash : Nat)
    (constructor_calldata : List Nat) (contract_address_salt : Nat)
    (cf : CommonTransactionV3Fields) : List Nat :=
  commonV3Fields fh cf ++ [fh constructor_calldata, class_hash, contract_address_salt]

/-- Modelled from the spec: the invoke version 3 preimage; the common segment
followed by the account-deployment-data hash and the calldata hash. -/
def invokeV3Input (fh : List Nat → Nat) (account_deployment_data calldata : List Nat)
    (cf : CommonTransactionV3Fields) : List Nat :=
  commonV3Fields fh cf ++ [fh account_deployment_data, fh calldata]

/-- Modelled from the spec: the declare version 3 preimage; the common segment
followed by the account-deployment-data hash, the class hash of the declared
sierra class and the compiled class hash. -/
def declareV3Input (fh : List Nat → Nat) (sierraClassHashOf : SierraContractClass → Nat)
    (account_deployment_data : List Nat) (contract_class : SierraContractClass)
    (compiled_class_hash : Nat) (cf : CommonTransactionV3Fields) : List Nat :=
  commonV3Fields fh cf ++
    [fh account_deployment_data, sierraClassHashOf contract_class, compiled_class_hash]

/-- Modelled from the spec: the legacy invoke preimage. -/
def invokeLegacyInput (fh : List Nat → Nat)
    (version sender_address : Nat) (calldata : List Nat)
    (max_fee chain_id nonce : Nat) : List Nat :=
  [invokeTag, version, sender_address, fh calldata, max_fee, chain_id, nonce]

/-- Modelled from the spec: the legacy declare preimage; the class hash of the
declared class stands in the calldata slot. -/
def declareLegacyInput (fh : List Nat → Nat) (classHashOf : ContractClass → Nat)
    (version sender_address : Nat) (contract_class : ContractClass)
    (max_fee chain_id nonce : Nat) : List Nat :=
  [declareTag, version, sender_address, fh [classHashOf contract_class],
   max_fee, chain_id, nonce]

/-- Modelled from the spec: the declare version 2 preimage; additionally the
compiled class hash. -/
def declareV2Input (fh : List Nat → Nat) (sierraClassHashOf : SierraContractClass → Nat)
    (version sender_address : Nat) (contract_class : SierraContractClass)
    (compiled_class_hash max_fee chain_id nonce : Nat) : List Nat :=
  [declareTag, version, sender_address, fh [sierraClassHashOf contract_class],
   max_fee, chain_id, nonce, compiled_class_hash]

/-- Modelled from the spec: the legacy deploy-account preimage; class hash,
salt and constructor calldata hashed into the calldata slot. -/
def deployAccountLegacyInput (fh : List Nat → Nat)
    (version contract_address class_hash : Nat) (constructor_calldata : List Nat)
    (max_fee nonce contract_address_salt chain_id : Nat) : List Nat :=
  [deployAccountTag, version, contract_address,
   fh ([class_hash, contract_address_salt] ++ constructor_calldata),
   max_fee, chain_id, nonce]

/-- Modelled from the spec: contract address derivation for a not-yet-deployed
contract; an external network-defined masking function reduces the hash onto
the address space. -/
def compute_address (fh : List Nat → Nat) (reduce : Nat → Nat)
    (deployer_address contract_address_salt class_hash : Nat)
    (constructor_calldata : List Nat) : Nat :=
  reduce (fh [deployer_address, contract_address_salt, class_hash, fh constructor_calldata])

/-- Embedding of the frozen Invoke dataclass. -/
structure Invoke where
  version : Nat
  signature : List Nat
  nonce : Nat
  max_fee : Nat
  sender_address : Nat
  calldata : List Nat
  type : TransactionType := TransactionType.invokeKind
deriving DecidableEq

/-- Embedding of the frozen Declare dataclass. -/
structure Declare where
  version : Nat
  signature : List Nat
  nonce : Nat
  max_fee : Nat
  contract_class : ContractClass
  sender_address : Nat
  type : TransactionType := TransactionType.declareKind
deriving DecidableEq

/-- Embedding of the frozen DeclareV2 dataclass. -/
structure DeclareV2 where
  version : Nat
  signature : List Nat
  nonce : Nat
  max_fee : Nat
  contract_class : SierraContractClass
  compiled_class_hash : Nat
  sender_address : Nat
  type : TransactionType := TransactionType.declareKind
deriving DecidableEq

/-- Embedding of the frozen DeclareV3 dataclass. -/
structure DeclareV3 where
  version : Nat
  signature : List Nat
  nonce : Nat
  sender_address : Nat
  compiled_class_hash : Nat
  contract_class : SierraContractClass
  resource_bounds : ResourceBoundsMapping
  tip : Nat := 0
  nonce_data_availability_mode : DAMode := DAMode.l1
  fee_data_availability_mode : DAMode := DAMode.l1
  account_deployment_data : List Nat := []
  paymaster_data : List Nat := []
  type : TransactionType := TransactionType.declareKind
deriving DecidableEq

/-- Embedding of the frozen DeployAccount dataclass. -/
structure DeployAccount where
  version : Nat
  signature : List Nat
  nonce : Nat
  max_fee : Nat
  class_hash : Nat
  contract_address_salt : Nat
  constructor_calldata : List Nat
  type : TransactionType := TransactionType.deployAccountKind
deriving DecidableEq

/-- Embedding of the frozen DeployAccountV3 dataclass. -/
structure DeployAccountV3 where
  version : Nat
  signature : List Nat
  nonce : Nat
  class_hash : Nat
  contract_address_salt : Nat
  constructor_calldata : List Nat
  resource_bounds : ResourceBoundsMapping
  paymaster_data : List Nat := []
  fee_data_availability_mode : DAMode := DAMode.l1
  nonce_data_availability_mode : DAMode := DAMode.l1
  tip : Nat := 0
  type : TransactionType := TransactionType.deployAccountKind
deriving DecidableEq

/-- Embedding of the frozen InvokeV3 dataclass. -/
structure InvokeV3 where
  version : Nat
  signature : List Nat
  nonce : Nat
  calldata : List Nat
  resource_bounds : ResourceBoundsMapping
  sender_address : Nat
  account_deployment_data : List Nat := []
  paymaster_data : List Nat := []
  fee_data_availability_mode : DAMode := DAMode.l1
  nonce_data_availability_mode : DAMode := DAMode.l1
  tip : Nat := 0
  type : TransactionType := TransactionType.invokeKind
deriving DecidableEq

/-- Preimage assembled by Invoke.calculate_hash. -/
def Invoke.hashInput (fh : List Nat → Nat) (tx : Invoke) (chain_id : Nat) : List Nat :=
  invokeLegacyInput fh tx.version tx.sender_address tx.calldata tx.max_fee chain_id tx.nonce

/-- Embedding of Invoke.calculate_hash. -/
def Invoke.calculate_hash (fh : List Nat → Nat) (tx : Invoke) (chain_id : Nat) : Nat :=
  fh (Invoke.hashInput fh tx chain_id)

/-- Preimage assembled by Declare.calculate_hash. -/
def Declare.hashInput (fh : List Nat → Nat) (classHashOf : ContractClass → Nat)
    (tx : Declare) (chain_id : Nat) : List Nat :=
  declareLegacyInput fh classHashOf tx.version tx.sender_address tx.contract_class
    tx.max_fee chain_id tx.nonce

/-- Embedding of Declare.calculate_hash. -/
def Declare.calculate_hash (fh : List Nat → Nat) (classHashOf : ContractClass → Nat)
    (tx : Declare) (chain_id : Nat) : Nat :=
  fh (Declare.hashInput fh classHashOf tx chain_id)

/-- Preimage assembled by DeclareV2.calculate_hash. -/
def DeclareV2.hashInput (fh : List Nat → Nat) (sierraClassHashOf : SierraContractClass → Nat)
    (tx : DeclareV2) (chain_id : Nat) : List Nat :=
  declareV2Input fh sierraClassHashOf tx.version tx.sender_address tx.contract_class
    tx.compiled_class_hash tx.max_fee chain_id tx.nonce

/-- Embedding of DeclareV2.calculate_hash. -/
def DeclareV2.calculate_hash (fh : List Nat → Nat)
    (sierraClassHashOf : SierraContractClass → Nat) (tx : DeclareV2) (chain_id : Nat) : Nat :=
  fh (DeclareV2.hashInput fh sierraClassHashOf tx chain_id)

/-- Preimage assembled by DeclareV3.calculate_hash; the source passes the
declare kind constant as tx_prefix. -/
def DeclareV3.hashInput (fh : List Nat → Nat) (sierraClassHashOf : SierraContractClass → Nat)
    (tx : DeclareV3) (chain_id : Nat) : List Nat :=
  declareV3Input fh sierraClassHashOf tx.account_deployment_data tx.contract_class
    tx.compiled_class_hash
    { txKind := declareTag
      version := tx.version
      address := tx.sender_address
      tip := tx.tip
      resource_bounds := tx.resource_bounds
      paymaster_data := tx.paymaster_data
      chain_id := chain_id
      nonce := tx.nonce
      nonce_data_availability_mode := tx.nonce_data_availability_mode
      fee_data_availability_mode := tx.fee_data_availability_mode }

/-- Embedding of DeclareV3.calculate_hash. -/
def DeclareV3.calculate_hash (fh : List Nat → Nat)
    (sierraClassHashOf : SierraContractClass → Nat) (tx : DeclareV3) (chain_id : Nat) : Nat :=
  fh (DeclareV3.hashInput fh sierraClassHashOf tx chain_id)

/-- Preimage assembled by DeployAccount.calculate_hash; the target address is
derived first, with the deployer address fixed to zero. -/
def DeployAccount.hashInput (fh : List Nat → Nat) (reduce : Nat → Nat)
    (tx : DeployAccount) (chain_id : Nat) : List Nat :=
  let contract_address := compute_address fh reduce 0 tx.contract_address_salt
    tx.class_hash tx.constructor_calldata
  deployAccountLegacyInput fh tx.version contract_address tx.class_hash
    tx.constructor_calldata tx.max_fee tx.nonce tx.contract_address_salt chain_id

/-- Embedding of DeployAccount.calculate_hash. -/
def DeployAccount.calculate_hash (fh : List Nat → Nat) (reduce : Nat → Nat)
    (tx : DeployAccount) (chain_id : Nat) : Nat :=
  fh (DeployAccount.hashInput fh reduce tx chain_id)

/-- Preimage assembled by DeployAccountV3.calculate_hash; the target address
is derived first with the deployer address fixed to zero, and the source
passes the declare kind constant as tx_prefix, line 231 of the transaction
module. -/
def DeployAccountV3.hashInput (fh : List Nat → Nat) (reduce : Nat → Nat)
    (tx : DeployAccountV3) (chain_id : Nat) : List Nat :=
  let contract_address := compute_address fh reduce 0 tx.contract_address_salt
    tx.class_hash tx.constructor_calldata
  deployAccountV3Input fh tx.class_hash tx.constructor_calldata tx.contract_address_salt
    { txKind := declareTag
      version := tx.version
      address := contract_address
      tip := tx.tip
      resource_bounds := tx.resource_bounds
      paymaster_data := tx.paymaster_data
      chain_id := chain_id
      nonce := tx.nonce
      nonce_data_availability_mode := tx.nonce_data_availability_mode
      fee_data_availability_mode := tx.fee_data_availability_mode }

/-- Embedding of DeployAccountV3.calculate_hash. -/
def DeployAccountV3.calculate_hash (fh : List Nat → Nat) (reduce : Nat → Nat)
    (tx : DeployAccountV3) (chain_id : Nat) : Nat :=
  fh (DeployAccountV3.hashInput fh reduce tx chain_id)

/-- Preimage assembled by InvokeV3.calculate_hash; the source passes the
declare kind constant as tx_prefix, line 309 of the transaction module. -/
def InvokeV3.hashInput (fh : List Nat → Nat) (tx : InvokeV3) (chain_id : Nat) : List Nat :=
  invokeV3Input fh tx.account_deployment_data tx.calldata
    { txKind := declareTag
      version := tx.version
      address := tx.sender_address
      tip := tx.tip
      resource_bounds := tx.resource_bounds
      paymaster_data := tx.paymaster_data
      chain_id := chain_id
      nonce := tx.nonce
      nonce_data_availability_mode := tx.nonce_data_availability_mode
      fee_data_availability_mode := tx.fee_data_availability_mode }

/-- Embedding of InvokeV3.calculate_hash. -/
def InvokeV3.calculate_hash (fh : List Nat → Nat) (tx : InvokeV3) (chain_id : Nat) : Nat :=
  fh (InvokeV3.hashInput fh tx chain_id)

/-- The closed union of the transaction variants. -/
inductive AnyTx where
  | invoke : Invoke → AnyTx
  | invokeV3 : InvokeV3 → AnyTx
  | declareLegacy : Declare → AnyTx
  | declareV2 : DeclareV2 → AnyTx
  | declareV3 : DeclareV3 → AnyTx
  | deployAccount : DeployAccount → AnyTx
  | deployAccountV3 : DeployAccountV3 → AnyTx
deriving DecidableEq

/-- State-passing embedding of calculate_hash over the closed transaction
union; the call returns the hash together with the transaction value as it
stands after the call, so preservation of the second component is exactly the
absence of field mutation. -/
def AnyTx.calculateHash (fh : List Nat → Nat) (reduce : Nat → Nat)
    (classHashOf : ContractClass → Nat) (sierraClassHashOf : SierraContractClass → Nat) :
    AnyTx → Nat → Nat × AnyTx
  | .invoke t, chain_id => (Invoke.calculate_hash fh t chain_id, .invoke t)
  | .invokeV3 t, chain_id => (InvokeV3.calculate_hash fh t chain_id, .invokeV3 t)
  | .declareLegacy t, chain_id =>
    (Declare.calculate_hash fh classHashOf t chain_id, .declareLegacy t)
  | .declareV2 t, chain_id =>
    (DeclareV2.calculate_hash fh sierraClassHashOf t chain_id, .declareV2 t)
  | .declareV3 t, chain_id =>
    (DeclareV3.calculate_hash fh sierraClassHashOf t chain_id, .declareV3 t)
  | .deployAccount t, chain_id =>
    (DeployAccount.calculate_hash fh reduce t chain_id, .deployAccount t)
  | .deployAccountV3 t, chain_id =>
    (DeployAccountV3.calculate_hash fh reduce t chain_id, .deployAccountV3 t)

/-- ASCII encoding of a text: the byte values of its characters. -/
def strToBytes (s : String) : List Nat :=
  s.data.map Char.toNat

/-- ASCII decoding of a byte list back to a text. -/
def bytesToStr (l : List Nat) : String :=
  String.mk (l.map Char.ofNat)

/-- A Python value stored in a declaration payload: a decoded program object
of abstract JSON-representable type, a text, or a nested string-keyed
dictionary. -/
inductive PyVal (α : Type) where
  | prog : α → PyVal α
  | str : String → PyVal α
  | dict : List (String × PyVal α) → PyVal α

/-- A string-keyed dictionary of payload values, in insertion order. -/
abbrev PyDict (α : Type) := List (String × PyVal α)

/-- Dictionary read. -/
def dget {β : Type} (d : List (String × β)) (k : String) : Option β :=
  match d with
  | [] => none
  | (k0, v0) :: rest => if k0 = k then some v0 else dget rest k

/-- Dictionary write: replaces the value of a present key in place, keeping
key order, and appends a missing key at the end, as a Python dict does. -/
def dset {β : Type} (d : List (String × β)) (k : String) (v : β) : List (String × β) :=
  match d with
  | [] => [(k, v)]
  | (k0, v0) :: rest => if k0 = k then (k0, v) :: rest else (k0, v0) :: dset rest k v

/-- Embedding of compress_program, the external codec primitives passed as
arguments: json.dumps, gzip.compress and base64.b64encode. The program entry
is JSON-encoded, ASCII-encoded, compressed, base64-encoded and stored back as
ASCII text in the same slot; a missing or ill-shaped entry raises, embedded
as none. -/
def compress_program {α : Type} (jsonDumps : α → String)
    (gzipCompress : List Nat → List Nat) (b64encode : List Nat → List Nat)
    (data : PyDict α) (program_name : String) : Option (PyDict α) :=
  match dget data "contract_class" with
  | some (PyVal.dict cc) =>
    match dget cc program_name with
    | some (PyVal.prog program) =>
      let compressed :=
        bytesToStr (b64encode (gzipCompress (strToBytes (jsonDumps program))))
      some (dset data "contract_class"
        (PyVal.dict (dset cc program_name (PyVal.str compressed))))
    | _ => none
  | _ => none

/-- Embedding of decompress_program, the external codec primitives passed as
arguments: base64.b64decode, gzip.decompress and json.loads, each fallible.
The stored text is ASCII-encoded, base64-decoded, decompressed and JSON-parsed
back into the same slot. -/
def decompress_program {α : Type} (jsonLoads : String → Option α)
    (gzipDecompress : List Nat → Option (List Nat))
    (b64decode : List Nat → Option (List Nat))
    (data : PyDict α) (program_name : String) : Option (PyDict α) :=
  match dget data "contract_class" with
  | some (PyVal.dict cc) =>
    match dget cc program_name with
    | some (PyVal.str compressed) =>
      match b64decode (strToBytes compressed) with
      | some unb64 =>
        match gzipDecompress unb64 with
        | some decompressed =>
          match jsonLoads (bytesToStr decompressed) with
          | some program =>
            some (dset data "contract_class"
              (PyVal.dict (dset cc program_name (PyVal.prog program))))
          | none => none
        | none => none
      | none => none
    | _ => none
  | _ => none

/-- Concrete stand-in for json.dumps over an abstract program type. -/
def jsonDumpsFix : Nat → String := fun n => String.mk (List.replicate n 'a')

/-- Concrete stand-in for json.loads, inverting jsonDumpsFix. -/
def jsonLoadsFix : String → Option Nat := fun s => some s.length

/-- Concrete stand-in for gzip.compress. -/
def gzipCFix : List Nat → List Nat := fun l => 0 :: l

/-- Concrete stand-in for gzip.decompress, inverting gzipCFix. -/
def gzipDFix : List Nat → Option (List Nat) := fun l => some l.tail

/-- Concrete stand-in for base64.b64encode. -/
def b64eFix : List Nat → List Nat := fun l => l ++ [1]

/-- Concrete stand-in for base64.b64decode, inverting b64eFix. -/
def b64dFix : List Nat → Option (List Nat) := fun l => some l.dropLast

/-- A concrete contract-class sub-dictionary holding a program and one other
entry. -/
def ccFix : PyDict Nat :=
  [("program", PyVal.prog 2), ("abi", PyVal.str "x")]

/-- A concrete declaration payload around ccFix with one unrelated key. -/
def payloadFix : PyDict Nat :=
  [("contract_class", PyVal.dict ccFix), ("other", PyVal.str "keep")]

/-- A concrete contract-class sub-dictionary holding a stored text form. -/
def cc2Fix : PyDict Nat :=
  [("program", PyVal.str "aa"), ("abi", PyVal.str "x")]

/-- A concrete compressed declaration payload around cc2Fix. -/
def payload2Fix : PyDict Nat :=
  [("contract_class", PyVal.dict cc2Fix)]

/-- C8: normalize_scalar maps the integer 123, the decimal text and the hex
text for 123 all to the literal 0x7b, and maps a non-numeric text to the hex
of the big-endian integer formed by its ASCII bytes. -/
theorem getHex_vectors :
    getHex (.int 123) = Except.ok "0x7b" ∧
    getHex (.str "123") = Except.ok "0x7b" ∧
    getHex (.str "0x7b") = Except.ok "0x7b" ∧
    getHex (.str "short_string") = Except.ok "0x73686f72745f737472696e67" := by
  refine ⟨rfl, rfl, rfl, rfl⟩

/-- If the registry declares a reserved name anywhere, the reserved-name scan
reports some reserved name. -/
theorem findReserved_of_mem (td : TypeDefs) (name : String) (fs : List Param)
    (hmem : (name, fs) ∈ td) (hres : name ∈ reservedNames) :
    ∃ r, r ∈ reservedNames ∧ findReserved td = some r := by
  induction td with
  | nil => cases hmem
  | cons hd rest ih =>
    obtain ⟨n, ps⟩ := hd
    by_cases hc : n ∈ reservedNames
    · exact ⟨n, hc, by simp [findReserved, hc]⟩
    · rcases List.mem_cons.mp hmem with heq | htl
      · injection heq with h1 h2
        subst h1
        exact absurd hres hc
      · rcases ih htl with ⟨r, hr, hfind⟩
        exact ⟨r, hr, by simp [findReserved, hc, hfind]⟩

/-- C6: constructing a TypedData whose types mapping declares a reserved name
(felt, felt*, string, selector) fails with the reserved-type-name validation
error, whatever revision the domain carries, before any hashing: construction
involves no hash primitive at all. -/
theorem mkTypedData_rejects_reserved (types : TypeDefs) (primaryType : String)
    (domain : Domain) (message : List (String × ScalarInput))
    (name : String) (fs : List Param)
    (hmem : (name, fs) ∈ types) (hres : name ∈ reservedNames) :
    ∃ r, r ∈ reservedNames ∧
      mkTypedData types primaryType domain message =
        Except.error ("Reserved type name: " ++ r) := by
  rcases findReserved_of_mem types name fs hmem hres with ⟨r, hr, hfind⟩
  exact ⟨r, hr, by simp [mkTypedData, validateTypes, hfind]⟩

/-- Witness for C6: the test scenario, each reserved name declared alongside
the revision 1 domain type, and the revision 0 variant for the name felt. -/
theorem mkTypedData_rejects_reserved_witness :
    (∃ r, r ∈ reservedNames ∧
      mkTypedData (domainTypeV1 ++ [("felt", [])]) "felt" domainV1
        [("felt", ScalarInput.int 1)] = Except.error ("Reserved type name: " ++ r)) ∧
    (∃ r, r ∈ reservedNames ∧
      mkTypedData (domainTypeV1 ++ [("felt*", [])]) "felt*" domainV1
        [("felt*", ScalarInput.int 1)] = Except.error ("Reserved type name: " ++ r)) ∧
    (∃ r, r ∈ reservedNames ∧
      mkTypedData (domainTypeV1 ++ [("string", [])]) "string" domainV1
        [("string", ScalarInput.int 1)] = Except.error ("Reserved type name: " ++ r)) ∧
    (∃ r, r ∈ reservedNames ∧
      mkTypedData (domainTypeV1 ++ [("selector", [])]) "selector" domainV1
        [("selector", ScalarInput.int 1)] = Except.error ("Reserved type name: " ++ r)) ∧
    (∃ r, r ∈ reservedNames ∧
      mkTypedData (domainTypeV0 ++ [("felt", [])]) "felt" domainV0
        [("felt", ScalarInput.int 1)] = Except.error ("Reserved type name: " ++ r)) :=
  ⟨mkTypedData_rejects_reserved _ _ _ _ "felt" [] (by decide) (by decide),
   mkTypedData_rejects_reserved _ _ _ _ "felt*" [] (by decide) (by decide),
   mkTypedData_rejects_reserved _ _ _ _ "string" [] (by decide) (by decide),
   mkTypedData_rejects_reserved _ _ _ _ "selector" [] (by decide) (by decide),
   mkTypedData_rejects_reserved _ _ _ _ "felt" [] (by decide) (by decide)⟩

/-- C7: encode_type of Mail over the Mail and Person schema renders the
revision 0 block string and the fully quoted revision 1 block string. -/
theorem encodeType_mail_vectors :
    encodeType .v0 mailTypes "Mail" =
      "Mail(from:Person,to:Person,contents:felt)Person(name:felt,wallet:felt)" ∧
    encodeType .v1 mailTypes "Mail" =
      "\"Mail\"(\"from\":\"Person\",\"to\":\"Person\",\"contents\":\"felt\")\"Person\"(\"name\":\"felt\",\"wallet\":\"felt\")" :=
  ⟨rfl, rfl⟩

/-- C1: for every DeployAccountV3 transaction and chain id the assembled
preimage begins with the declare kind constant, not the deploy-account kind
constant the claim requires; the kind constants themselves are pairwise
distinct. -/
theorem deployAccountV3_preimage_head_is_declare_tag
    (fh : List Nat → Nat) (reduce : Nat → Nat) (tx : DeployAccountV3) (chain_id : Nat) :
    (DeployAccountV3.hashInput fh reduce tx chain_id).head? = some declareTag ∧
    declareTag ≠ deployAccountTag ∧ declareTag ≠ invokeTag ∧
    deployAccountTag ≠ invokeTag :=
  ⟨rfl, by decide, by decide, by decide⟩

/-- C2: for every InvokeV3 transaction and chain id the assembled preimage
begins with the declare kind constant, not the invoke kind constant the claim
requires; the kind constants themselves are pairwise distinct. -/
theorem invokeV3_preimage_head_is_declare_tag
    (fh : List Nat → Nat) (tx : InvokeV3) (chain_id : Nat) :
    (InvokeV3.hashInput fh tx chain_id).head? = some declareTag ∧
    invokeTag ≠ declareTag ∧ invokeTag ≠ deployAccountTag ∧
    declareTag ≠ deployAccountTag :=
  ⟨rfl, by decide, by decide, by decide⟩

/-- C4: both deploy-account variants place, as the third preimage element,
the address derived by the address deriver from a zero deployer address and
the salt, class hash and constructor calldata of the transaction. -/
theorem deployAccount_address_derived_with_zero_deployer
    (fh : List Nat → Nat) (reduce : Nat → Nat)
    (t3 : DeployAccountV3) (t1 : DeployAccount) (chain_id : Nat) :
    (DeployAccountV3.hashInput fh reduce t3 chain_id).get? 2 =
      some (compute_address fh reduce 0 t3.contract_address_salt t3.class_hash
        t3.constructor_calldata) ∧
    (DeployAccount.hashInput fh reduce t1 chain_id).get? 2 =
      some (compute_address fh reduce 0 t1.contract_address_salt t1.class_hash
        t1.constructor_calldata) :=
  ⟨rfl, rfl⟩

/-- C9: calculate_hash never mutates the transaction it runs on; in the
state-passing embedding the transaction state after the call is the input
value itself, for every variant of the closed union, so hashing is a pure
read of the fields and the chain id. -/
theorem calculateHash_preserves_transaction
    (fh : List Nat → Nat) (reduce : Nat → Nat)
    (classHashOf : ContractClass → Nat) (sierraClassHashOf : SierraContractClass → Nat)
    (tx : AnyTx) (chain_id : Nat) :
    (AnyTx.calculateHash fh reduce classHashOf sierraClassHashOf tx chain_id).2 = tx := by
  cases tx <;> rfl

/-- Reading back the key just written yields the written value. -/
theorem dget_dset_self {β : Type} (d : List (String × β)) (k : String) (v : β) :
    dget (dset d k v) k = some v := by
  induction d with
  | nil => simp [dget, dset]
  | cons hd rest ih =>
    obtain ⟨k0, v0⟩ := hd
    by_cases h : k0 = k
    · simp [dget, dset, h]
    · simp [dget, dset, h, ih]

/-- Writing one key leaves every other key reading as before. -/
theorem dget_dset_ne {β : Type} (d : List (String × β)) (k k1 : String) (v : β)
    (h : k1 ≠ k) : dget (dset d k v) k1 = dget d k1 := by
  induction d with
  | nil => simp [dget, dset, Ne.symm h]
  | cons hd rest ih =>
    obtain ⟨k0, v0⟩ := hd
    by_cases hk : k0 = k
    · subst hk
      simp [dget, dset, Ne.symm h]
    · simp [dget, dset, hk, ih]

/-- Writing a key twice keeps only the second write. -/
theorem dset_dset {β : Type} (d : List (String × β)) (k : String) (v w : β) :
    dset (dset d k v) k w = dset d k w := by
  induction d with
  | nil => simp [dset]
  | cons hd rest ih =>
    obtain ⟨k0, v0⟩ := hd
    by_cases h : k0 = k
    · simp [dset, h]
    · simp [dset, h, ih]

/-- Writing back the value a key already holds changes nothing. -/
theorem dset_eq_of_dget {β : Type} (d : List (String × β)) (k : String) (v : β)
    (h : dget d k = some v) : dset d k v = d := by
  induction d with
  | nil => simp [dget] at h
  | cons hd rest ih =>
    obtain ⟨k0, v0⟩ := hd
    by_cases hk : k0 = k
    · simp [dget, hk] at h
      simp [dset, hk, h]
    · simp [dget, hk] at h
      simp [dset, hk, ih h]

/-- A character packed from a small byte unpacks to the same byte. -/
theorem char_toNat_ofNat_of_lt {n : Nat} (h : n < 128) : (Char.ofNat n).toNat = n := by
  have hv : n.isValidChar := Or.inl (by omega)
  rw [Char.ofNat, dif_pos hv]
  rfl

/-- ASCII decoding inverts ASCII encoding on every text. -/
theorem bytesToStr_strToBytes (s : String) : bytesToStr (strToBytes s) = s := by
  cases s with
  | mk data =>
    simp only [bytesToStr, strToBytes, List.map_map]
    have hmap : data.map (Char.ofNat ∘ Char.toNat) = data.map id :=
      List.map_congr_left (fun c _ => by simp [Function.comp])
    rw [hmap, List.map_id]

/-- ASCII encoding inverts ASCII decoding on byte lists below 128. -/
theorem strToBytes_bytesToStr (l : List Nat) (h : ∀ x ∈ l, x < 128) :
    strToBytes (bytesToStr l) = l := by
  show (l.map Char.ofNat).map Char.toNat = l
  rw [List.map_map]
  have hmap : l.map (Char.toNat ∘ Char.ofNat) = l.map id :=
    List.map_congr_left (fun x hx => by
      simpa [Function.comp] using char_toNat_ofNat_of_lt (h x hx))
  rw [hmap, List.map_id]

/-- C5: decompressing a freshly compressed declaration payload restores the
payload exactly, the decoded program object included, provided each external
codec inverts its encoder on the values that arise; only round-trip fidelity
of the codecs is assumed, never byte identity of the compressed form. -/
theorem compress_decompress_program_roundtrip {α : Type}
    (jsonDumps : α → String) (jsonLoads : String → Option α)
    (gzipCompress : List Nat → List Nat) (gzipDecompress : List Nat → Option (List Nat))
    (b64encode : List Nat → List Nat) (b64decode : List Nat → Option (List Nat))
    (data : PyDict α) (cc : PyDict α) (program : α) (program_name : String)
    (hcc : dget data "contract_class" = some (PyVal.dict cc))
    (hprog : dget cc program_name = some (PyVal.prog program))
    (hjson : jsonLoads (jsonDumps program) = some program)
    (hgzip : gzipDecompress (gzipCompress (strToBytes (jsonDumps program))) =
      some (strToBytes (jsonDumps program)))
    (hb64 : b64decode (b64encode (gzipCompress (strToBytes (jsonDumps program)))) =
      some (gzipCompress (strToBytes (jsonDumps program))))
    (hascii : ∀ x ∈ b64encode (gzipCompress (strToBytes (jsonDumps program))), x < 128) :
    (compress_program jsonDumps gzipCompress b64encode data program_name).bind
      (fun mid => decompress_program jsonLoads gzipDecompress b64decode mid program_name) =
      some data := by
  have hstored := strToBytes_bytesToStr _ hascii
  have hjs := bytesToStr_strToBytes (jsonDumps program)
  simp only [compress_program, hcc, hprog, Option.bind_some, Option.some_bind]
  simp only [decompress_program, dget_dset_self, hstored, hb64, hgzip, hjs, hjson]
  rw [dset_dset, dset_dset, dset_eq_of_dget _ _ _ hprog, dset_eq_of_dget _ _ _ hcc]

/-- Witness for C5: the round trip at a concrete payload with concrete
invertible codecs. -/
theorem compress_decompress_program_roundtrip_witness :
    (compress_program jsonDumpsFix gzipCFix b64eFix payloadFix "program").bind
      (fun mid => decompress_program jsonLoadsFix gzipDFix b64dFix mid "program") =
      some payloadFix :=
  compress_decompress_program_roundtrip jsonDumpsFix jsonLoadsFix gzipCFix gzipDFix
    b64eFix b64dFix payloadFix ccFix 2 "program" rfl rfl rfl rfl rfl (by decide)

/-- C10: each codec direction returns the dictionary it was given with only
the program entry of the contract-class sub-dictionary replaced, by the
stored base64 text, respectively by the decoded program object; every other
key of the outer dictionary, and every other key of the contract-class
sub-dictionary, reads unchanged. The in-place update of the source is the
returned value of the pure embedding. -/
theorem compress_decompress_program_frame {α : Type}
    (jsonDumps : α → String) (jsonLoads : String → Option α)
    (gzipCompress : List Nat → List Nat) (gzipDecompress : List Nat → Option (List Nat))
    (b64encode : List Nat → List Nat) (b64decode : List Nat → Option (List Nat))
    (data cc : PyDict α) (program : α) (program_name : String)
    (data2 cc2 : PyDict α) (stored2 : String) (u w : List Nat) (q : α)
    (hcc : dget data "contract_class" = some (PyVal.dict cc))
    (hprog : dget cc program_name = some (PyVal.prog program))
    (hcc2 : dget data2 "contract_class" = some (PyVal.dict cc2))
    (hstored2 : dget cc2 program_name = some (PyVal.str stored2))
    (hb : b64decode (strToBytes stored2) = some u)
    (hg : gzipDecompress u = some w)
    (hj : jsonLoads (bytesToStr w) = some q) :
    (∃ mid ccOut,
      compress_program jsonDumps gzipCompress b64encode data program_name = some mid ∧
      dget mid "contract_class" = some (PyVal.dict ccOut) ∧
      dget ccOut program_name = some (PyVal.str (bytesToStr (b64encode
        (gzipCompress (strToBytes (jsonDumps program)))))) ∧
      (∀ k, k ≠ "contract_class" → dget mid k = dget data k) ∧
      (∀ k, k ≠ program_name → dget ccOut k = dget cc k)) ∧
    (∃ out ccOut2,
      decompress_program jsonLoads gzipDecompress b64decode data2 program_name = some out ∧
      dget out "contract_class" = some (PyVal.dict ccOut2) ∧
      dget ccOut2 program_name = some (PyVal.prog q) ∧
      (∀ k, k ≠ "contract_class" → dget out k = dget data2 k) ∧
      (∀ k, k ≠ program_name → dget ccOut2 k = dget cc2 k)) := by
  constructor
  · refine ⟨dset data "contract_class" (PyVal.dict (dset cc program_name
        (PyVal.str (bytesToStr (b64encode (gzipCompress (strToBytes (jsonDumps program)))))))),
      dset cc program_name (PyVal.str (bytesToStr (b64encode
        (gzipCompress (strToBytes (jsonDumps program)))))), ?_, ?_, ?_, ?_, ?_⟩
    · simp [compress_program, hcc, hprog]
    · exact dget_dset_self _ _ _
    · exact dget_dset_self _ _ _
    · intro k hk
      exact dget_dset_ne _ _ _ _ hk
    · intro k hk
      exact dget_dset_ne _ _ _ _ hk
  · refine ⟨dset data2 "contract_class" (PyVal.dict (dset cc2 program_name (PyVal.prog q))),
      dset cc2 program_name (PyVal.prog q), ?_, ?_, ?_, ?_, ?_⟩
    · simp [decompress_program, hcc2, hstored2, hb, hg, hj]
    · exact dget_dset_self _ _ _
    · exact dget_dset_self _ _ _
    · intro k hk
      exact dget_dset_ne _ _ _ _ hk
    · intro k hk
      exact dget_dset_ne _ _ _ _ hk

/-- Witness for C10: the frame property at concrete payloads for both
directions. -/
theorem compress_decompress_program_frame_witness :
    (∃ mid ccOut,
      compress_program jsonDumpsFix gzipCFix b64eFix payloadFix "program" = some mid ∧
      dget mid "contract_class" = some (PyVal.dict ccOut) ∧
      dget ccOut "program" = some (PyVal.str (bytesToStr (b64eFix
        (gzipCFix (strToBytes (jsonDumpsFix 2)))))) ∧
      (∀ k, k ≠ "contract_class" → dget mid k = dget payloadFix k) ∧
      (∀ k, k ≠ "program" → dget ccOut k = dget ccFix k)) ∧
    (∃ out ccOut2,
      decompress_program jsonLoadsFix gzipDFix b64dFix payload2Fix "program" = some out ∧
      dget out "contract_class" = some (PyVal.dict ccOut2) ∧
      dget ccOut2 "program" = some (PyVal.prog 0) ∧
      (∀ k, k ≠ "contract_class" → dget out k = dget payload2Fix k) ∧
      (∀ k, k ≠ "program" → dget ccOut2 k = dget cc2Fix k)) :=
  compress_decompress_program_frame jsonDumpsFix jsonLoadsFix gzipCFix gzipDFix
    b64eFix b64dFix payloadFix ccFix 2 "program" payload2Fix cc2Fix "aa" [97] [] 0
    rfl rfl rfl rfl rfl rfl rfl
